import Mathlib

/-!
# Device configuration table of the ESP32 terminal

A verification development for `firmware/esp32_terminal/config_local.h`.
The header is a flat list of object-like definitions. It is embedded twice:

* `sourceLines` is the text of the header, line by line;
* every definition is a Lean constant of the same name, typed after its
  literal (string literal, boolean literal, integer literal), and
  `configTable` lists the constants in the order of the header.

`table_of_source` ties the two together: reading the definition lines of the
text yields exactly `configTable`.
-/

namespace ConfigLocal

/-! ## The header text -/

/-- The lines of `config_local.h`, in order, without their line terminators. -/
def sourceLines : List String :=
  [ "#pragma once",
    "",
    "// Automatisch aus ESP32 Provisioning erzeugt",
    "#define LOCAL_WIFI_SSID \"IoT\"",
    "#define LOCAL_WIFI_PASSWORD \"!desischmeiWlanduNudeldunger\\\"\"",
    "#define LOCAL_SERVER_ENDPOINT \"http://192.168.0.100:26400/api/terminal/punch\"",
    "#define LOCAL_USE_TLS false",
    "#define LOCAL_TERMINAL_KEY \"1f2c1770fa442a646d417bce5901fab5d685617426dbffee\"",
    "",
    "#define LOCAL_READER_TYPE \"RC522\"",
    "#define LOCAL_PN532_MODE \"I2C\"",
    "",
    "#define LOCAL_PIN_SDA 21",
    "#define LOCAL_PIN_SCL 22",
    "#define LOCAL_PIN_MOSI 23",
    "#define LOCAL_PIN_MISO 19",
    "#define LOCAL_PIN_SCK 18",
    "#define LOCAL_PIN_SS 5",
    "#define LOCAL_PIN_RST 22",
    "#define LOCAL_PIN_IRQ 4",
    "",
    "#define LOCAL_DISPLAY_ENABLED true",
    "#define LOCAL_DISPLAY_ROWS 4",
    "#define LOCAL_DISPLAY_SDA 21",
    "#define LOCAL_DISPLAY_SCL 22",
    "#define LOCAL_DISPLAY_ADDRESS \"0x27\"",
    "#define LOCAL_IDLE_LINE1 \"Metallbau Kopf\"",
    "",
    "#define LOCAL_TIMEZONE \"CET-1CEST,M3.5.0/2,M10.5.0/3\"",
    "#define LOCAL_NTP_SERVER \"pool.ntp.org\"" ]

/-! ## The definitions as constants -/

def LOCAL_WIFI_SSID : String := "IoT"
def LOCAL_WIFI_PASSWORD : String := "!desischmeiWlanduNudeldunger\""
def LOCAL_SERVER_ENDPOINT : String := "http://192.168.0.100:26400/api/terminal/punch"
def LOCAL_USE_TLS : Bool := false
def LOCAL_TERMINAL_KEY : String := "1f2c1770fa442a646d417bce5901fab5d685617426dbffee"

def LOCAL_READER_TYPE : String := "RC522"
def LOCAL_PN532_MODE : String := "I2C"

def LOCAL_PIN_SDA : Int := 21
def LOCAL_PIN_SCL : Int := 22
def LOCAL_PIN_MOSI : Int := 23
def LOCAL_PIN_MISO : Int := 19
def LOCAL_PIN_SCK : Int := 18
def LOCAL_PIN_SS : Int := 5
def LOCAL_PIN_RST : Int := 22
def LOCAL_PIN_IRQ : Int := 4

def LOCAL_DISPLAY_ENABLED : Bool := true
def LOCAL_DISPLAY_ROWS : Int := 4
def LOCAL_DISPLAY_SDA : Int := 21
def LOCAL_DISPLAY_SCL : Int := 22
def LOCAL_DISPLAY_ADDRESS : String := "0x27"
def LOCAL_IDLE_LINE1 : String := "Metallbau Kopf"

def LOCAL_TIMEZONE : String := "CET-1CEST,M3.5.0/2,M10.5.0/3"
def LOCAL_NTP_SERVER : String := "pool.ntp.org"

/-- The three kinds of literal the header uses as replacement text. A string
literal is kept by its contents (escape sequences resolved). -/
inductive Literal where
  | str (s : String)
  | bool (b : Bool)
  | int (n : Int)
  deriving DecidableEq, Repr

/-- The definitions of the header, in the order of the header. -/
def configTable : List (String × Literal) :=
  [ ("LOCAL_WIFI_SSID", .str LOCAL_WIFI_SSID),
    ("LOCAL_WIFI_PASSWORD", .str LOCAL_WIFI_PASSWORD),
    ("LOCAL_SERVER_ENDPOINT", .str LOCAL_SERVER_ENDPOINT),
    ("LOCAL_USE_TLS", .bool LOCAL_USE_TLS),
    ("LOCAL_TERMINAL_KEY", .str LOCAL_TERMINAL_KEY),
    ("LOCAL_READER_TYPE", .str LOCAL_READER_TYPE),
    ("LOCAL_PN532_MODE", .str LOCAL_PN532_MODE),
    ("LOCAL_PIN_SDA", .int LOCAL_PIN_SDA),
    ("LOCAL_PIN_SCL", .int LOCAL_PIN_SCL),
    ("LOCAL_PIN_MOSI", .int LOCAL_PIN_MOSI),
    ("LOCAL_PIN_MISO", .int LOCAL_PIN_MISO),
    ("LOCAL_PIN_SCK", .int LOCAL_PIN_SCK),
    ("LOCAL_PIN_SS", .int LOCAL_PIN_SS),
    ("LOCAL_PIN_RST", .int LOCAL_PIN_RST),
    ("LOCAL_PIN_IRQ", .int LOCAL_PIN_IRQ),
    ("LOCAL_DISPLAY_ENABLED", .bool LOCAL_DISPLAY_ENABLED),
    ("LOCAL_DISPLAY_ROWS", .int LOCAL_DISPLAY_ROWS),
    ("LOCAL_DISPLAY_SDA", .int LOCAL_DISPLAY_SDA),
    ("LOCAL_DISPLAY_SCL", .int LOCAL_DISPLAY_SCL),
    ("LOCAL_DISPLAY_ADDRESS", .str LOCAL_DISPLAY_ADDRESS),
    ("LOCAL_IDLE_LINE1", .str LOCAL_IDLE_LINE1),
    ("LOCAL_TIMEZONE", .str LOCAL_TIMEZONE),
    ("LOCAL_NTP_SERVER", .str LOCAL_NTP_SERVER) ]

/-- The eight `LOCAL_PIN_*` definitions, name and pin number, in header order. -/
def pinAssignment : List (String × Int) :=
  [ ("LOCAL_PIN_SDA", LOCAL_PIN_SDA),
    ("LOCAL_PIN_SCL", LOCAL_PIN_SCL),
    ("LOCAL_PIN_MOSI", LOCAL_PIN_MOSI),
    ("LOCAL_PIN_MISO", LOCAL_PIN_MISO),
    ("LOCAL_PIN_SCK", LOCAL_PIN_SCK),
    ("LOCAL_PIN_SS", LOCAL_PIN_SS),
    ("LOCAL_PIN_RST", LOCAL_PIN_RST),
    ("LOCAL_PIN_IRQ", LOCAL_PIN_IRQ) ]

/-! ## Reading the text -/

/-- The double quote character. -/
def dquote : Char := Char.ofNat 34

/-- The backslash character. -/
def backslash : Char := Char.ofNat 92

/-- The directive keyword that opens a definition line, with its separator. -/
def directive : List Char := "#define ".toList

/-- Strip the leading characters `p` from `cs`, when `cs` begins with them. -/
def stripLeading : List Char → List Char → Option (List Char)
  | [], cs => some cs
  | _ :: _, [] => none
  | p :: ps, c :: cs => if p = c then stripLeading ps cs else none

/-- The text of a definition line after the directive keyword. -/
def definitionBody (line : String) : Option (List Char) :=
  stripLeading directive line.toList

/-- Whether a line of the header is a definition line. -/
def isDefinition (line : String) : Bool :=
  (definitionBody line).isSome

/-- The definition lines of a text, in order. -/
def definitionLines (ls : List String) : List String :=
  ls.filter isDefinition

/-- The name a definition line defines: the characters up to the first blank
after the directive keyword. -/
def definedName (line : String) : Option String :=
  (definitionBody line).map fun body => String.mk (body.takeWhile (· ≠ ' '))

/-- The names defined by a text, one per definition line, in order. -/
def definedNames (ls : List String) : List String :=
  ls.filterMap definedName

/-- Whether a character is a hexadecimal digit (0-9, a-f, A-F). -/
def isHexDigit (c : Char) : Bool :=
  ('0' ≤ c ∧ c ≤ '9') ∨ ('a' ≤ c ∧ c ≤ 'f') ∨ ('A' ≤ c ∧ c ≤ 'F')

/-- The value of a hexadecimal digit. -/
def hexDigitValue (c : Char) : Nat :=
  if '0' ≤ c ∧ c ≤ '9' then c.toNat - '0'.toNat
  else if 'a' ≤ c ∧ c ≤ 'f' then c.toNat - 'a'.toNat + 10
  else c.toNat - 'A'.toNat + 10

/-- Read a hexadecimal number written with a `0x` mark in front: the mark
must be followed by at least one character, all of them hexadecimal digits. -/
def parseHex (s : String) : Option Nat :=
  match s.toList with
  | '0' :: 'x' :: d :: ds =>
    if (d :: ds).all isHexDigit then
      some ((d :: ds).foldl (fun acc c => 16 * acc + hexDigitValue c) 0)
    else none
  | _ => none

/-- Whether `s` begins with the characters of `p`. -/
def beginsWith (s p : String) : Bool :=
  (stripLeading p.toList s.toList).isSome

/-- The replacement text of `name` in a text: what follows the name and one
blank on the first definition line that defines `name`. -/
def replacementText (ls : List String) (name : String) : Option String :=
  match ls.find? (fun l => definedName l = some name) with
  | none => none
  | some line =>
    (definitionBody line).map fun body =>
      String.mk ((body.dropWhile (· ≠ ' ')).drop 1)

/-- The settings the consumers of the table expect, by consumer: the network
client, the reader driver (selection, then SPI and I2C pins), the display
driver, the clock module. -/
def requiredSettings : List String :=
  [ "LOCAL_WIFI_SSID", "LOCAL_WIFI_PASSWORD", "LOCAL_SERVER_ENDPOINT",
    "LOCAL_USE_TLS", "LOCAL_TERMINAL_KEY",
    "LOCAL_READER_TYPE", "LOCAL_PN532_MODE",
    "LOCAL_PIN_MOSI", "LOCAL_PIN_MISO", "LOCAL_PIN_SCK", "LOCAL_PIN_SS",
    "LOCAL_PIN_RST", "LOCAL_PIN_IRQ", "LOCAL_PIN_SDA", "LOCAL_PIN_SCL",
    "LOCAL_DISPLAY_ENABLED", "LOCAL_DISPLAY_ROWS", "LOCAL_DISPLAY_SDA",
    "LOCAL_DISPLAY_SCL", "LOCAL_DISPLAY_ADDRESS", "LOCAL_IDLE_LINE1",
    "LOCAL_TIMEZONE", "LOCAL_NTP_SERVER" ]

/-! ## The literal syntax: reading and writing definitions -/

/-- Modelled from the spec: the reader of a string literal is not part of the
header. The contents of a string literal whose opening quote has been read:
an escaped quote or escaped backslash stands for that character, any other
escape is refused, and the closing quote must end the line. -/
def readStringBody : List Char → Option (List Char)
  | [] => none
  | c :: rest =>
    if c = dquote then
      (if rest = [] then some [] else none)
    else if c = backslash then
      match rest with
      | [] => none
      | e :: rest2 =>
        if e = dquote ∨ e = backslash then (readStringBody rest2).map (e :: ·)
        else none
    else (readStringBody rest).map (c :: ·)

/-- Modelled from the spec: the reader of an integer literal is not part of
the header. A non-empty run of decimal digits and its value. -/
def readDecimal (cs : List Char) : Option Nat :=
  if cs ≠ [] ∧ cs.all Char.isDigit then
    some (cs.foldl (fun acc c => 10 * acc + (c.toNat - '0'.toNat)) 0)
  else none

/-- Modelled from the spec: the reader of a literal is not part of the header.
A literal is a string literal in double quotes, one of the boolean literals
`true` and `false`, or a decimal integer literal. -/
def readLiteral (cs : List Char) : Option Literal :=
  match cs with
  | [] => none
  | c :: rest =>
    if c = dquote then (readStringBody rest).map fun s => Literal.str (String.mk s)
    else if cs = "true".toList then some (Literal.bool true)
    else if cs = "false".toList then some (Literal.bool false)
    else (readDecimal cs).map fun n => Literal.int (Int.ofNat n)

/-- Modelled from the spec: the reader of a definition line is not part of
the header. The text after the directive keyword is `NAME value` or
`NAME "value"`: a non-empty name, one blank, a literal. -/
def readEntry (line : String) : Option (String × Literal) :=
  match definitionBody line with
  | none => none
  | some body =>
    match body.span (· ≠ ' ') with
    | (_, []) => none
    | (name, _ :: value) =>
      if name = [] then none
      else (readLiteral value).map fun v => (String.mk name, v)

/-- Modelled from the spec: the reader of the table is not part of the
header. The ordered table of the definition lines of a text; it fails when a
definition line cannot be read. -/
def readTable (ls : List String) : Option (List (String × Literal)) :=
  (definitionLines ls).mapM readEntry

/-- Modelled from the spec: the writer of a string literal is not part of the
header. The contents of a string literal with quote and backslash escaped. -/
def escapeChars : List Char → List Char
  | [] => []
  | c :: rest =>
    if c = dquote ∨ c = backslash then backslash :: c :: escapeChars rest
    else c :: escapeChars rest

/-- Modelled from the spec: the writer of a literal is not part of the
header. A string is written in double quotes, a boolean as `true` or `false`,
an integer in decimal. -/
def writeLiteral : Literal → String
  | .str s => String.mk (dquote :: (escapeChars s.toList ++ [dquote]))
  | .bool true => "true"
  | .bool false => "false"
  | .int n => toString n

/-- Modelled from the spec: the writer of a definition line is not part of
the header. The directive keyword followed by `NAME value`. -/
def writeEntry (e : String × Literal) : String :=
  String.mk directive ++ e.1 ++ " " ++ writeLiteral e.2

/-- Modelled from the spec: the writer of the table is not part of the
header. One definition line per entry, in order. -/
def writeTable (t : List (String × Literal)) : List String :=
  t.map writeEntry

/-- Modelled from the spec: read the table of a text and write it again. -/
def reserialise (ls : List String) : Option (List String) :=
  (readTable ls).map writeTable

/-! ## Supporting lemmas -/

/-- Reading the definition lines of the header yields the table of constants. -/
theorem table_of_source : readTable sourceLines = some configTable := by
  set_option maxRecDepth 100000 in decide

/-- The pin assignment is the part of the table whose names begin with
`LOCAL_PIN_`. -/
theorem pinAssignment_of_table :
    configTable.filterMap (fun e =>
      match e.2 with
      | .int n => if beginsWith e.1 "LOCAL_PIN_" then some (e.1, n) else none
      | _ => none) = pinAssignment := by
  set_option maxRecDepth 100000 in decide

/-- Reading an escaped string body followed by its closing quote gives the
string back, whatever the string. -/
theorem readStringBody_escapeChars (s : List Char) :
    readStringBody (escapeChars s ++ [dquote]) = some s := by
  have hne : backslash ≠ dquote := by decide
  induction s with
  | nil => simp [escapeChars, readStringBody]
  | cons c rest ih =>
    by_cases hq : c = dquote
    · subst hq
      simp [escapeChars, readStringBody, hne, ih]
    · by_cases hb : c = backslash
      · subst hb
        simp [escapeChars, readStringBody, hq, ih]
      · have hstep : escapeChars (c :: rest) = c :: escapeChars rest := by
          simp [escapeChars, hq, hb]
        rw [hstep, List.cons_append, readStringBody.eq_def]
        simp [hq, hb, ih]

/-- Reading a written string literal gives the literal back, whatever the
string. -/
theorem readLiteral_writeLiteral_str (s : String) :
    readLiteral (writeLiteral (.str s)).toList = some (.str s) := by
  simp [writeLiteral, readLiteral, readStringBody_escapeChars]

/-- Reading a written boolean literal gives the literal back. -/
theorem readLiteral_writeLiteral_bool (b : Bool) :
    readLiteral (writeLiteral (.bool b)).toList = some (.bool b) := by
  cases b <;> decide

/-! ## The claims -/

/-- C1, as stated, fails: `LOCAL_TERMINAL_KEY` is not a string of exactly 49
hexadecimal digits, because its length is not 49. -/
theorem terminal_key_not_49_hex :
    ¬ (LOCAL_TERMINAL_KEY.length = 49 ∧
        LOCAL_TERMINAL_KEY.toList.all isHexDigit = true) := by
  decide

/-- C1, amended: `LOCAL_TERMINAL_KEY` is a string of exactly 48 characters,
every one of which is a hexadecimal digit (0-9, a-f, A-F). -/
theorem terminal_key_48_hex :
    LOCAL_TERMINAL_KEY.length = 48 ∧
      LOCAL_TERMINAL_KEY.toList.all isHexDigit = true := by
  decide

/-- C2: `LOCAL_PIN_SCL` and `LOCAL_PIN_RST` both equal 22, `LOCAL_PIN_SDA` is
21, the eight `LOCAL_PIN_*` names are distinct, and the only two of them that
are assigned the same pin number are `LOCAL_PIN_SCL` and `LOCAL_PIN_RST`. -/
theorem pin_aliasing_only_scl_rst :
    LOCAL_PIN_SCL = 22 ∧ LOCAL_PIN_RST = 22 ∧ LOCAL_PIN_SDA = 21 ∧
      pinAssignment.length = 8 ∧
      (pinAssignment.map Prod.fst).Nodup ∧
      pinAssignment.Pairwise (fun a b =>
        a.2 = b.2 → a.1 = "LOCAL_PIN_SCL" ∧ b.1 = "LOCAL_PIN_RST") := by
  decide

/-- C3: each of the eight `LOCAL_PIN_*` values and of `LOCAL_DISPLAY_SDA`,
`LOCAL_DISPLAY_SCL` is an integer between 0 and 39, bounds included. -/
theorem pin_numbers_in_gpio_range :
    (0 ≤ LOCAL_PIN_SDA ∧ LOCAL_PIN_SDA ≤ 39) ∧
      (0 ≤ LOCAL_PIN_SCL ∧ LOCAL_PIN_SCL ≤ 39) ∧
      (0 ≤ LOCAL_PIN_MOSI ∧ LOCAL_PIN_MOSI ≤ 39) ∧
      (0 ≤ LOCAL_PIN_MISO ∧ LOCAL_PIN_MISO ≤ 39) ∧
      (0 ≤ LOCAL_PIN_SCK ∧ LOCAL_PIN_SCK ≤ 39) ∧
      (0 ≤ LOCAL_PIN_SS ∧ LOCAL_PIN_SS ≤ 39) ∧
      (0 ≤ LOCAL_PIN_RST ∧ LOCAL_PIN_RST ≤ 39) ∧
      (0 ≤ LOCAL_PIN_IRQ ∧ LOCAL_PIN_IRQ ≤ 39) ∧
      (0 ≤ LOCAL_DISPLAY_SDA ∧ LOCAL_DISPLAY_SDA ≤ 39) ∧
      (0 ≤ LOCAL_DISPLAY_SCL ∧ LOCAL_DISPLAY_SCL ≤ 39) := by
  decide

/-- C4: `LOCAL_DISPLAY_ADDRESS` is the string `0x27`; it reads as a
hexadecimal number (the `0x` mark followed only by hexadecimal digits) whose
value lies between 0x00 and 0x7F, a valid 7-bit I2C address. -/
theorem display_address_is_7bit :
    LOCAL_DISPLAY_ADDRESS = "0x27" ∧
      ∃ v, parseHex LOCAL_DISPLAY_ADDRESS = some v ∧ 0x00 ≤ v ∧ v ≤ 0x7F :=
  ⟨by decide, 0x27, by decide⟩

/-- C5: the header defines 23 names, no name twice, and each setting its
consumers require is defined exactly once. -/
theorem settings_defined_exactly_once :
    (definedNames sourceLines).length = 23 ∧
      (definedNames sourceLines).Nodup ∧
      requiredSettings.all (fun n => (definedNames sourceLines).count n = 1) = true := by
  set_option maxRecDepth 100000 in decide

/-- C6: the replacement text of `LOCAL_USE_TLS` is the unquoted boolean
literal `false` and that of `LOCAL_DISPLAY_ENABLED` the unquoted boolean
literal `true`; in the table both are boolean literals, not string literals. -/
theorem flags_are_boolean_literals :
    replacementText sourceLines "LOCAL_USE_TLS" = some "false" ∧
      replacementText sourceLines "LOCAL_DISPLAY_ENABLED" = some "true" ∧
      configTable.lookup "LOCAL_USE_TLS" = some (.bool false) ∧
      configTable.lookup "LOCAL_DISPLAY_ENABLED" = some (.bool true) ∧
      LOCAL_USE_TLS = false ∧ LOCAL_DISPLAY_ENABLED = true := by
  set_option maxRecDepth 100000 in decide

/-- C7: reading the definition lines of the header gives the ordered table of
constants, in which the value of `LOCAL_WIFI_PASSWORD` ends in a double quote;
writing that table gives the definition lines back, character for character;
reading and writing once more changes nothing; and every character of the
header is a single byte, so character for character is byte for byte. -/
theorem table_round_trip :
    readTable sourceLines = some configTable ∧
      configTable.lookup "LOCAL_WIFI_PASSWORD"
        = some (.str "!desischmeiWlanduNudeldunger\"") ∧
      writeTable configTable = definitionLines sourceLines ∧
      reserialise sourceLines = some (definitionLines sourceLines) ∧
      (reserialise sourceLines).bind reserialise = reserialise sourceLines ∧
      sourceLines.all (fun l => l.toList.all (fun c => c.toNat < 128)) = true := by
  set_option maxRecDepth 100000 in decide

/-- C8: `LOCAL_USE_TLS` is true exactly when `LOCAL_SERVER_ENDPOINT` begins
with `https://`; here the flag is false and the endpoint begins with
`http://`. -/
theorem tls_flag_agrees_with_scheme :
    (LOCAL_USE_TLS = true ↔ beginsWith LOCAL_SERVER_ENDPOINT "https://" = true) ∧
      LOCAL_USE_TLS = false ∧
      beginsWith LOCAL_SERVER_ENDPOINT "http://" = true := by
  decide

/-- C9: the display uses the I2C pins of the reader, `LOCAL_DISPLAY_SDA` is
`LOCAL_PIN_SDA` and `LOCAL_DISPLAY_SCL` is `LOCAL_PIN_SCL`, and
`LOCAL_DISPLAY_ROWS` is positive. -/
theorem display_shares_reader_i2c_pins :
    LOCAL_DISPLAY_SDA = LOCAL_PIN_SDA ∧ LOCAL_DISPLAY_SCL = LOCAL_PIN_SCL ∧
      0 < LOCAL_DISPLAY_ROWS := by
  decide

/-- C10: the reader type is `RC522`, the display is enabled, and the reader
reset pin is the display clock pin; none of the SPI signal pins MOSI, MISO,
SCK, SS, IRQ is a display pin. -/
theorem reset_collides_with_display_clock :
    LOCAL_READER_TYPE = "RC522" ∧ LOCAL_DISPLAY_ENABLED = true ∧
      LOCAL_PIN_RST = LOCAL_DISPLAY_SCL ∧
      [LOCAL_PIN_MOSI, LOCAL_PIN_MISO, LOCAL_PIN_SCK, LOCAL_PIN_SS, LOCAL_PIN_IRQ].all
        (fun p => p ≠ LOCAL_DISPLAY_SDA ∧ p ≠ LOCAL_DISPLAY_SCL) = true := by
  decide

end ConfigLocal
